import Mathlib

/-
Verification development for the Ink repository (two JavaScript source files):
  Inkjs/Ink/UI/Sticky/1/lib.js        (the Sticky positioning widget)
  src/js/Ink/Dom/Browser/1/lib.js     (the user-agent sniffer)

The JavaScript is shallowly embedded: JS numbers that can be NaN are the
inductive JSVal (machine integers plus a NaN point); strings are List Char;
DOM geometry reads are oracle inputs passed in environment records; inline
style and CSS class mutations are explicit record updates.
-/

/-- Model of the JavaScript values flowing through the embedded code: an
integer number, the NaN number, a string, or undefined. Fractional numbers do
not arise in the embedded fragments (all sources are integer pixel metrics or
parseInt results). -/
inductive JSVal where
  | num (n : Int)
  | nan
  | str (s : List Char)
  | undef
deriving DecidableEq

/-- JavaScript truthiness for the values of JSVal: 0, NaN, the empty string
and undefined are falsy, everything else is truthy. -/
def truthy : JSVal → Bool
  | JSVal.num n => decide (n ≠ 0)
  | JSVal.nan => false
  | JSVal.str s => decide (s ≠ [])
  | JSVal.undef => false

/-- Whitespace class of JavaScript regular expressions, restricted to the
ASCII whitespace characters (the Unicode space characters never occur in the
strings the embedded code handles). -/
def isSpaceJS (c : Char) : Bool :=
  c == ' ' || c == '\t' || c == '\n' || c == '\r' || c == '\x0B' || c == '\x0C'

/-- ASCII lower-casing of one character, the fragment of String.toLowerCase
exercised by the user-agent patterns. -/
def toLowerChar (c : Char) : Char :=
  if 'A' ≤ c ∧ c ≤ 'Z' then Char.ofNat (c.toNat + 32) else c

/-- ASCII lower-casing of a string. -/
def lowerStr (s : List Char) : List Char := s.map toLowerChar

/-- Decimal value of a digit string. -/
def digitsToNat (ds : List Char) : Nat :=
  List.foldl (fun acc c => acc * 10 + (c.toNat - 48)) 0 ds

/-- Helper for parseIntStr: parse a maximal leading run of decimal digits,
NaN when there is none. -/
def parseDigits (t : List Char) : JSVal :=
  let ds := t.takeWhile (fun c => c.isDigit)
  if ds = [] then JSVal.nan else JSVal.num (Int.ofNat (digitsToNat ds))

/-- JavaScript parseInt(s, 10) on a string: skip leading whitespace, read an
optional sign and then a maximal run of decimal digits; NaN when no digit
follows. Trailing garbage is ignored, as in JS. -/
def parseIntStr (s : List Char) : JSVal :=
  let t := s.dropWhile isSpaceJS
  match t with
  | '-' :: rest =>
      match parseDigits rest with
      | JSVal.num n => JSVal.num (-n)
      | v => v
  | '+' :: rest => parseDigits rest
  | _ => parseDigits t

/-- JavaScript parseInt(v, 10) on any value: numbers parse to themselves
(the embedded code only feeds integer-valued numbers to parseInt), strings
are parsed, NaN and undefined stringify to non-numeric text and give NaN. -/
def parseIntJS : JSVal → JSVal
  | JSVal.num n => JSVal.num n
  | JSVal.str s => parseIntStr s
  | JSVal.nan => JSVal.nan
  | JSVal.undef => JSVal.nan

/-- JavaScript addition on the numeric values that reach arithmetic in the
embedded code: NaN propagates. -/
def jsAdd : JSVal → JSVal → JSVal
  | JSVal.num a, JSVal.num b => JSVal.num (a + b)
  | _, _ => JSVal.nan

/-- JavaScript subtraction on the numeric values that reach arithmetic in the
embedded code: NaN propagates. -/
def jsSub : JSVal → JSVal → JSVal
  | JSVal.num a, JSVal.num b => JSVal.num (a - b)
  | _, _ => JSVal.nan

/-- JavaScript strict greater-than: any comparison with NaN is false. -/
def jsGt : JSVal → JSVal → Bool
  | JSVal.num a, JSVal.num b => decide (a > b)
  | _, _ => false

/-- JavaScript less-than-or-equal: any comparison with NaN is false. -/
def jsLe : JSVal → JSVal → Bool
  | JSVal.num a, JSVal.num b => decide (a ≤ b)
  | _, _ => false

/-- JavaScript number-to-string coercion as used by the string
concatenations of the scroll handler. -/
def jsNumToChars : JSVal → List Char
  | JSVal.num n => (toString n).toList
  | JSVal.nan => "NaN".toList
  | JSVal.str s => s
  | JSVal.undef => "undefined".toList

/-- Boolean test that pat is a prefix of s. -/
def lpre : List Char → List Char → Bool
  | [], _ => true
  | _ :: _, [] => false
  | p :: ps, c :: cs => p == c && lpre ps cs

/-- All suffixes of s from the longest to the empty one, i.e. one suffix per
match position of a regular-expression scan. -/
def suffixes : List Char → List (List Char)
  | [] => [[]]
  | c :: rest => (c :: rest) :: suffixes rest

/-- Substring test: some suffix of s starts with pat. This models a test of
a regular expression consisting of literal characters. -/
def containsSub (pat s : List Char) : Bool :=
  (suffixes s).any (fun t => lpre pat t)

/-- Remainders of s after each occurrence of the literal pattern pat, in
order of the match position. -/
def occAfter (pat : List Char) (s : List Char) : List (List Char) :=
  (((suffixes s).filter (fun t => lpre pat t)).map (List.drop pat.length))

/-- Occurrences of the literal pattern pat that are followed by at least one
character outside the class bad; such occurrences are exactly the positions
at which a regex of the shape pat([^bad]+) can match. Returns the remainder
after pat for each of them, in match-position order. -/
def tokenMatches (pat : List Char) (bad : Char → Bool) (s : List Char) : List (List Char) :=
  (occAfter pat s).filter (fun t =>
    match t with
    | c :: _ => !(bad c)
    | [] => false)

/-- Model of s.replace(/(.*)pat([^bad]+)(.*)/, second group): the greedy
leading group selects the last viable occurrence of pat, the token is the
maximal run of characters outside bad after it, and when no occurrence is
viable the replace does not fire and the whole string is returned. Assumes s
contains no line terminator (true of every string the code handles), since
the dot of a JS regex does not cross lines. -/
def replaceTok (pat : List Char) (bad : Char → Bool) (s : List Char) : List Char :=
  match (tokenMatches pat bad s).getLast? with
  | some t => t.takeWhile (fun c => !(bad c))
  | none => s

/-- Model of a test-then-match pair on the regex pat([^bad]+): the first
viable occurrence wins and the captured group is returned, none when the
regex does not match. -/
def matchTok (pat : List Char) (bad : Char → Bool) (s : List Char) : Option (List Char) :=
  match (tokenMatches pat bad s).head? with
  | some t => some (t.takeWhile (fun c => !(bad c)))
  | none => none

def kwApplewebkit : List Char := "applewebkit/".toList
def kwChromeSlash : List Char := "chrome/".toList
def kwCriosSlash : List Char := "crios/".toList
def kwOpera : List Char := "opera".toList
def kwKonqueror : List Char := "konqueror".toList
def kwKonquerorSlash : List Char := "konqueror/".toList
def kwMsie : List Char := "msie".toList
def kwTrident : List Char := "trident".toList
def kwGecko : List Char := "gecko".toList
def kwVersionSlash : List Char := "version/".toList
def kwRv : List Char := "rv:".toList
def kwChrome : List Char := "chrome".toList
def kwSafari : List Char := "safari".toList
def kwIe : List Char := "ie".toList
def kwMozilla : List Char := "mozilla".toList
def kwWebkitCss : List Char := "-webkit-".toList
def kwWebkitDom : List Char := "Webkit".toList
def kwOperaCss : List Char := "-o-".toList
def kwOperaDom : List Char := "O".toList
def kwKhtmlCss : List Char := "-khtml-".toList
def kwKhtmlDom : List Char := "Khtml".toList
def kwMsCss : List Char := "-ms-".toList
def kwMsDom : List Char := "ms".toList
def kwMozCss : List Char := "-moz-".toList
def kwMozDom : List Char := "Moz".toList

/-- Result record of the user-agent sniffer (Ink.Dom.Browser). The model,
version and userAgent properties start as the JS sentinel false and are
modelled as Option values with none for the sentinel. The source field names
cssPrefix and domPrefix are rendered as cssPref and domPref. -/
structure BrowserRec where
  IE : Bool
  GECKO : Bool
  OPERA : Bool
  SAFARI : Bool
  KONQUEROR : Bool
  CHROME : Bool
  model : Option (List Char)
  version : Option (List Char)
  userAgent : Option (List Char)
  cssPref : Option (List Char)
  domPref : Option (List Char)
deriving DecidableEq

/-- Version of the Safari branch, lib.js lines 193-198: first try
/version\/([^) ]+)/ and keep its captured group, otherwise fall back to the
replace on (.*)applewebkit\/([^\s]+)(.*). -/
def safariVersion (s : List Char) : List Char :=
  match matchTok kwVersionSlash (fun c => c == ')' || c == ' ') s with
  | some v => v
  | none => replaceTok kwApplewebkit isSpaceJS s

/-- Version of the Opera branch, lib.js line 204: the replace on
(.*)opera.([^\s$]+)(.*); the dot after opera consumes one arbitrary
non-line-terminator character. -/
def operaVersion (s : List Char) : List Char :=
  match ((occAfter kwOpera s).filter (fun t =>
      match t with
      | c0 :: c1 :: _ => !(c0 == '\n') && !(c0 == '\r') && !(isSpaceJS c1 || c1 == '$')
      | _ => false)).getLast? with
  | some (_ :: rest) => rest.takeWhile (fun c => !(isSpaceJS c || c == '$'))
  | _ => s

/-- Version of the Konqueror branch, lib.js line 211: the replace on
(.*)konqueror\/([^;]+);(.*), which needs a semicolon after the version run. -/
def konqVersion (s : List Char) : List Char :=
  match ((occAfter kwKonquerorSlash s).filter (fun t =>
      match t with
      | c :: rest => !(c == ';') && (c :: rest).any (fun d => d == ';')
      | [] => false)).getLast? with
  | some t => t.takeWhile (fun c => !(c == ';'))
  | none => s

/-- Match positions of the \smsie\s shape inside the IE version replace. -/
def msiePat (t : List Char) : Bool :=
  match t with
  | c0 :: c1 :: c2 :: c3 :: c4 :: c5 :: _ =>
      isSpaceJS c0 && c1 == 'm' && c2 == 's' && c3 == 'i' && c4 == 'e' && isSpaceJS c5
  | _ => false

/-- Fallback version of the IE branch, lib.js line 221: the replace on
(.*)\smsie\s([^;]+);(.*). -/
def msieReplace (s : List Char) : List Char :=
  match ((((suffixes s).filter msiePat).map (List.drop 6)).filter (fun t =>
      match t with
      | c :: rest => !(c == ';') && (c :: rest).any (fun d => d == ';')
      | [] => false)).getLast? with
  | some t => t.takeWhile (fun c => !(c == ';'))
  | none => s

/-- Version of the IE branch, lib.js lines 218-222: the rv:((?:\d|\.)+)
match wins (IE 11), otherwise the \smsie\s replace. -/
def ieVersion (s : List Char) : List Char :=
  match matchTok kwRv (fun c => !(c.isDigit || c == '.')) s with
  | some v => v
  | none => msieReplace s

/-- Product names of the Gecko branch, lib.js line 235, in alternation
order. -/
def geckoNames : List (List Char) :=
  List.map String.toList
    ["camino", "chimera", "epiphany", "minefield", "firefox", "firebird",
     "phoenix", "galeon", "iceweasel", "k-meleon", "seamonkey", "netscape",
     "songbird", "sylera"]

/-- First match of the Gecko product-name alternation: the leftmost position
wins and among alternatives at the same position the one listed first wins,
as in a JS regex scan. -/
def geckoModel (s : List Char) : Option (List Char) :=
  ((suffixes s).filterMap (fun t => geckoNames.find? (fun n => lpre n t))).head?

/-- Version of a recognised Gecko product, lib.js line 238: the replace on
(.*)model\/([^;\s$]+)(.*). -/
def geckoVersion (m s : List Char) : List Char :=
  replaceTok (m ++ ['/']) (fun c => isSpaceJS c || c == ';' || c == '$') s

/-- Version of the generic mozilla fallback, lib.js lines 242-245: the
replace on (.*)rv:([^)]+)(.*) fires only when it matches, otherwise the
version property stays at its false sentinel. -/
def mozillaRvVersion (s : List Char) : Option (List Char) :=
  match (tokenMatches kwRv (fun c => c == ')') s).getLast? with
  | some t => some (t.takeWhile (fun c => !(c == ')')))
  | none => none

/-- Model and version of the Gecko branch, lib.js lines 235-246. -/
def geckoModelVersion (s : List Char) : (List Char) × Option (List Char) :=
  match geckoModel s with
  | some m => (m, some (geckoVersion m s))
  | none => (kwMozilla, mozillaRvVersion s)

/-- Embedding of Browser._sniffUserAgent, lib.js lines 176-248. The source
mutates a shared record whose family flags all start false; each branch is
rendered as the record it produces. The ordered if chain is kept exactly:
applewebkit/ first, then opera, konqueror, msie-or-trident, gecko. -/
def sniffUserAgent (ua : List Char) : BrowserRec :=
  let s := lowerStr ua
  if containsSub kwApplewebkit s then
    if containsSub kwChromeSlash s || containsSub kwCriosSlash s then
      { IE := false, GECKO := false, OPERA := false, SAFARI := false,
        KONQUEROR := false, CHROME := true, model := some kwChrome,
        version := some (replaceTok kwChromeSlash isSpaceJS s),
        userAgent := some ua, cssPref := some kwWebkitCss, domPref := some kwWebkitDom }
    else
      { IE := false, GECKO := false, OPERA := false, SAFARI := true,
        KONQUEROR := false, CHROME := false, model := some kwSafari,
        version := some (safariVersion s),
        userAgent := some ua, cssPref := some kwWebkitCss, domPref := some kwWebkitDom }
  else if containsSub kwOpera s then
    { IE := false, GECKO := false, OPERA := true, SAFARI := false,
      KONQUEROR := false, CHROME := false, model := some kwOpera,
      version := some (operaVersion s),
      userAgent := some ua, cssPref := some kwOperaCss, domPref := some kwOperaDom }
  else if containsSub kwKonqueror s then
    { IE := false, GECKO := false, OPERA := false, SAFARI := false,
      KONQUEROR := true, CHROME := false, model := some kwKonqueror,
      version := some (konqVersion s),
      userAgent := some ua, cssPref := some kwKhtmlCss, domPref := some kwKhtmlDom }
  else if containsSub kwMsie s || containsSub kwTrident s then
    { IE := true, GECKO := false, OPERA := false, SAFARI := false,
      KONQUEROR := false, CHROME := false, model := some kwIe,
      version := some (ieVersion s),
      userAgent := some ua, cssPref := some kwMsCss, domPref := some kwMsDom }
  else if containsSub kwGecko s then
    { IE := false, GECKO := true, OPERA := false, SAFARI := false,
      KONQUEROR := false, CHROME := false, model := some (geckoModelVersion s).1,
      version := (geckoModelVersion s).2,
      userAgent := some ua, cssPref := some kwMozCss, domPref := some kwMozDom }
  else
    { IE := false, GECKO := false, OPERA := false, SAFARI := false,
      KONQUEROR := false, CHROME := false, model := none, version := none,
      userAgent := some ua, cssPref := none, domPref := none }

/-- Number of family flags that are set. -/
def famCount (b : BrowserRec) : Nat :=
  b.IE.toNat + b.GECKO.toNat + b.OPERA.toNat + b.SAFARI.toNat +
    b.KONQUEROR.toNat + b.CHROME.toNat

/-- Option record of the Sticky widget (this._options), lib.js lines 49-54
and the original* keys added later by _calculateOriginalSizes. Keys that a
given moment has not defined hold JSVal.undef. -/
structure StickyOptions where
  offsetTop : JSVal
  offsetBottom : JSVal
  topElement : JSVal
  bottomElement : JSVal
  originalOffsetTop : JSVal
  originalOffsetBottom : JSVal
  originalTop : JSVal
  originalLeft : JSVal
  originalWidth : JSVal
deriving DecidableEq

/-- Defaults of the Sticky constructor, lib.js lines 49-53. -/
def stickyDefaults : StickyOptions :=
  { offsetTop := JSVal.num 0, offsetBottom := JSVal.num 0,
    topElement := JSVal.undef, bottomElement := JSVal.undef,
    originalOffsetTop := JSVal.undef, originalOffsetBottom := JSVal.undef,
    originalTop := JSVal.undef, originalLeft := JSVal.undef,
    originalWidth := JSVal.undef }

/-- One source object of the option merge: for each recognised option key,
some value when the object carries the key and none when it does not. The
options argument of the constructor and the data-attribute record extracted
from the element both have this shape. -/
structure OptArgs where
  offsetTop : Option JSVal
  offsetBottom : Option JSVal
  topElement : Option JSVal
  bottomElement : Option JSVal
deriving DecidableEq

/-- Source object with no keys. -/
def noArgs : OptArgs := ⟨none, none, none, none⟩

/-- Modelled from the spec: Ink.extendObj, the shallow object merging helper
of the Ink core module, is not under src. The spec lists shallow object
merging among the collaborator capabilities; the model copies every key
present in the source object onto the destination, so that when several
sources are applied in turn a later source overrides an earlier one. -/
def applyArgs (dst : StickyOptions) (a : OptArgs) : StickyOptions :=
  { dst with
    offsetTop := match a.offsetTop with | some v => v | none => dst.offsetTop,
    offsetBottom := match a.offsetBottom with | some v => v | none => dst.offsetBottom,
    topElement := match a.topElement with | some v => v | none => dst.topElement,
    bottomElement := match a.bottomElement with | some v => v | none => dst.bottomElement }

/-- The option merge of the Sticky constructor, lib.js line 49-54:
Ink.extendObj(defaults, options or empty, Element.data(rootElement)), i.e.
the explicit options are applied over the defaults first and the
data-attribute record is applied last. -/
def extendObj3 (dst : StickyOptions) (o d : OptArgs) : StickyOptions :=
  applyArgs (applyArgs dst o) d

/-- Inline style state of the target element: whether the style attribute is
present, and the inline position and top declarations. Setting either
declaration materialises the attribute; removeAttribute clears all three. -/
structure ElemStyle where
  hasAttr : Bool
  position : Option (List Char)
  top : Option (List Char)
deriving DecidableEq

/-- Style state after elm.removeAttribute applied to style. -/
def emptyStyle : ElemStyle := ⟨false, none, none⟩

def kwTop : List Char := "top".toList
def kwBottom : List Char := "bottom".toList
def kwScreen : List Char := "screen".toList
def kwStatic : List Char := "static".toList
def kwFixed : List Char := "fixed".toList
def kwAuto : List Char := "auto".toList
def kwPx : List Char := "px".toList

/-- Geometry read by _calculateOriginalSizes, lib.js lines 233-238: the
offsetTop and offsetLeft of the root element, the width captured into
this._dims at construction, and the live computed width. -/
structure SizesEnv where
  rootOffsetTop : Int
  rootOffsetLeft : Int
  dimsWidth : JSVal
  computedWidth : JSVal
deriving DecidableEq

/-- Geometry read by _calculateOffsets, lib.js lines 182-214: height and top
of the top boundary element and height of the bottom boundary element, as
returned by Element.elementHeight and Element.elementTop. -/
structure OffsetsEnv where
  topHeight : Int
  topTop : Int
  bottomHeight : Int
deriving DecidableEq

/-- Geometry read by one tick of _onScroll, lib.js lines 103-119: the
rendered width of the root element, the viewport clientWidth (from
documentElement or body depending on compatMode), and the bounding
rectangles of the root and of the two boundary elements. Only the fields the
handler reads are kept. -/
structure ScrollEnv where
  elementWidth : Int
  clientWidth : Int
  elemRectTop : Int
  elemRectBottom : Int
  topRectBottom : Int
  bottomRectTop : Int
deriving DecidableEq

/-- State of one Sticky widget: the mutable option record, the ORIGINAL
snapshot taken at line 56 of the constructor, whether each resolved boundary
element is the page body (the nodeName test of _calculateOffsets), the
inline style of the target, the last recorded mode _stickingTo (none models
undefined), and the two sticking CSS classes. -/
structure StickyWidget where
  options : StickyOptions
  ORIGINAL : StickyOptions
  topIsBody : Bool
  bottomIsBody : Bool
  style : ElemStyle
  stickingTo : Option (List Char)
  classSticking : Bool
  classStickingBottom : Bool
deriving DecidableEq

/-- Embedding of _calculateOriginalSizes, lib.js lines 227-239. The original
offsets are captured only once (when originalOffsetTop is still undefined);
lines 235-237 store a NaN-guarded parse of the captured dims width into
originalWidth and line 238 then unconditionally overwrites it with the parse
of the live computed width. -/
def calcOriginalSizes (env : SizesEnv) (o : StickyOptions) : StickyOptions :=
  let o1 := if o.originalOffsetTop = JSVal.undef then
      { o with
        originalOffsetTop := parseIntJS o.offsetTop
        originalOffsetBottom := parseIntJS o.offsetBottom }
    else o
  let o2 := { o1 with
              originalTop := JSVal.num env.rootOffsetTop
              originalLeft := JSVal.num env.rootOffsetLeft }
  let o3 := { o2 with originalWidth := if parseIntJS env.dimsWidth = JSVal.nan
                        then JSVal.num 0 else parseIntJS env.dimsWidth }
  { o3 with originalWidth := parseIntJS env.computedWidth }

/-- Embedding of _calculateOffsets, lib.js lines 182-214, without the final
_onScroll call (composed separately). The defined-ness tests on _topElement
and _bottomElement always pass because the constructor assigns both; the
nodeName test is the isBody flag. parseInt applied to the integer geometry
values is the identity and is rendered directly as the numbers. -/
def calcOffsets (env : OffsetsEnv) (topIsBody bottomIsBody : Bool)
    (o : StickyOptions) : StickyOptions :=
  let o1 := if !topIsBody then
      { o with offsetTop := jsAdd (jsAdd (JSVal.num env.topHeight) (JSVal.num env.topTop))
                              (parseIntJS o.originalOffsetTop) }
    else { o with offsetTop := parseIntJS o.originalOffsetTop }
  if !bottomIsBody then
    { o1 with offsetBottom := jsAdd (JSVal.num env.bottomHeight)
                                (parseIntJS o1.originalOffsetBottom) }
  else { o1 with offsetBottom := parseIntJS o1.originalOffsetBottom }

/-- The offsetTop value a scroll tick works with, lib.js line 121: the
truthiness-guarded parse of ORIGINAL.offsetTop, 0 for a falsy value. -/
def onScrollOffsetTop (w : StickyWidget) : JSVal :=
  if truthy w.ORIGINAL.offsetTop then parseIntJS w.ORIGINAL.offsetTop else JSVal.num 0

/-- The offsetBottom value a scroll tick works with, lib.js line 122. -/
def onScrollOffsetBottom (w : StickyWidget) : JSVal :=
  if truthy w.ORIGINAL.offsetBottom then parseIntJS w.ORIGINAL.offsetBottom else JSVal.num 0

/-- The narrow-viewport guard of _onScroll, lib.js lines 106-109: the
rendered width of the target exceeds 90 percent of the viewport width, or
the viewport is at most 649 pixels wide. The JS comparison divides real
numbers; it is rendered in cross-multiplied form, which agrees with it
whenever clientWidth is positive, and a non-positive clientWidth fires the
second disjunct anyway. -/
def guardFires (env : ScrollEnv) : Bool :=
  decide (env.elementWidth * 100 > 90 * env.clientWidth) || decide (env.clientWidth ≤ 649)

/-- Mode decision of one scroll tick, lib.js lines 129-144: the TOP branch
is tested first, then BOTTOM, then SCREEN, and when none fires the sticking
string stays empty and the style is untouched. Returns the stickingTo string
of the tick together with the style the tick leaves on the element. -/
def scrollDecision (offTop offBottom : JSVal) (env : ScrollEnv) (s0 : ElemStyle) :
    (List Char) × ElemStyle :=
  if jsGt (JSVal.num env.topRectBottom) offTop = true
      ∧ env.bottomRectTop > env.elemRectBottom - env.elemRectTop then
    (kwTop, { s0 with hasAttr := true, position := some kwStatic, top := some kwAuto })
  else if env.bottomRectTop < env.elemRectBottom - env.elemRectTop then
    (kwBottom, { s0 with
                 hasAttr := true
                 position := some kwFixed
                 top := some (jsNumToChars (jsSub (jsSub (JSVal.num env.bottomRectTop)
                        (JSVal.num (env.elemRectBottom - env.elemRectTop))) offBottom) ++ kwPx) })
  else if jsLe (JSVal.num env.topRectBottom) offTop = true then
    (kwScreen, { s0 with
                 hasAttr := true
                 position := some kwFixed
                 top := some (jsNumToChars offTop ++ kwPx) })
  else ([], s0)

/-- Embedding of one tick of _onScroll, lib.js lines 102-153. When the
narrow-viewport guard fires the inline style attribute is removed when
present and the handler returns; otherwise the mode decision runs, the
recorded mode is updated only for a non-empty sticking string that differs
from the recorded one, and the two sticking classes are set from the
sticking string of this tick. -/
def onScroll (env : ScrollEnv) (w : StickyWidget) : StickyWidget :=
  if guardFires env then
    if w.style.hasAttr then { w with style := emptyStyle } else w
  else
    let d := scrollDecision (onScrollOffsetTop w) (onScrollOffsetBottom w) env w.style
    { w with
      style := d.2
      stickingTo := if d.1 ≠ [] ∧ w.stickingTo ≠ some d.1 then some d.1 else w.stickingTo
      classSticking := decide (d.1 = kwTop)
      classStickingBottom := decide (d.1 = kwBottom) }

/-- Environment of a widget construction: whether the elements the two
boundary selectors resolve to are the page body, and the geometry read by
the initial _calculateOriginalSizes, _calculateOffsets and the _onScroll
tick the latter triggers; style0 is the inline style the target carries
before construction. -/
structure InitEnv where
  topSelIsBody : Bool
  bottomSelIsBody : Bool
  senv : SizesEnv
  oenv : OffsetsEnv
  scenv : ScrollEnv
  style0 : ElemStyle
deriving DecidableEq

/-- Embedding of the Sticky constructor and _init, lib.js lines 30-94: merge
the options (defaults, then the explicit options, then the data attributes),
snapshot them into ORIGINAL, resolve the boundary elements (the body when the
corresponding option is undefined), then run _calculateOriginalSizes and
_calculateOffsets; the latter ends with an _onScroll tick. -/
def mkSticky (opts datas : OptArgs) (e : InitEnv) : StickyWidget :=
  let merged := extendObj3 stickyDefaults opts datas
  let topIsBody := if merged.topElement = JSVal.undef then true else e.topSelIsBody
  let bottomIsBody := if merged.bottomElement = JSVal.undef then true else e.bottomSelIsBody
  let w0 : StickyWidget :=
    { options := merged, ORIGINAL := merged, topIsBody := topIsBody,
      bottomIsBody := bottomIsBody, style := e.style0, stickingTo := none,
      classSticking := false, classStickingBottom := false }
  let w1 := { w0 with options := calcOriginalSizes e.senv w0.options }
  let w2 := { w1 with options := calcOffsets e.oenv topIsBody bottomIsBody w1.options }
  onScroll e.scenv w2

/-- Geometry read by one settled resize, bundling the reads of
_calculateOriginalSizes, _calculateOffsets and the _onScroll tick. -/
structure ResizeEnv where
  senv : SizesEnv
  oenv : OffsetsEnv
  scenv : ScrollEnv
deriving DecidableEq

/-- Embedding of the settled _onResize work, lib.js lines 161-173: the
debounce timer fires once per burst and then removes the inline style
attribute, reruns _calculateOriginalSizes and _calculateOffsets, and the
latter ends with an _onScroll tick. -/
def onResizeSettled (e : ResizeEnv) (w : StickyWidget) : StickyWidget :=
  let wa := { w with style := emptyStyle }
  let wb := { wa with options := calcOriginalSizes e.senv wa.options }
  let wc := { wb with options := calcOffsets e.oenv wb.topIsBody wb.bottomIsBody wb.options }
  onScroll e.scenv wc

/-- Widget state with default configuration, both boundaries the body and no
inline style, as after constructing with no options over a clean element. -/
def exWidget0 : StickyWidget :=
  { options := stickyDefaults
    ORIGINAL := stickyDefaults
    topIsBody := true
    bottomIsBody := true
    style := emptyStyle
    stickingTo := none
    classSticking := false
    classStickingBottom := false }

/-- Widget state whose ORIGINAL snapshot carries offsetBottom 7. -/
def exWidget7 : StickyWidget :=
  { exWidget0 with ORIGINAL := { stickyDefaults with offsetBottom := JSVal.num 7 } }

/-- Widget state whose ORIGINAL snapshot carries the unparseable offsetTop
string abc. -/
def exWidgetNan : StickyWidget :=
  { exWidget0 with ORIGINAL := { stickyDefaults with offsetTop := JSVal.str ("abc".toList) } }

/-- Scroll geometry of a tick in which the bottom condition holds: a
200-pixel-tall target, the bottom boundary 100 pixels below the viewport
top, a wide viewport. -/
def exBottomEnv : ScrollEnv :=
  { elementWidth := 100, clientWidth := 1000, elemRectTop := 0, elemRectBottom := 200,
    topRectBottom := 300, bottomRectTop := 100 }

/-- Scroll geometry of a tick in which the top condition holds. -/
def exTopEnv : ScrollEnv :=
  { exBottomEnv with topRectBottom := 100, bottomRectTop := 500 }

/-- Scroll geometry in which the bottom boundary top exactly equals the
target height, so that no mode condition holds. -/
def exEqEnv : ScrollEnv :=
  { exBottomEnv with bottomRectTop := 200 }

/-- Scroll geometry of a 600-pixel-wide viewport, which fires the
narrow-viewport guard. -/
def exGuardEnv : ScrollEnv :=
  { exBottomEnv with clientWidth := 600 }

/-- Widget state carrying an inline style, to exercise the guard removal. -/
def exWidgetStyled : StickyWidget :=
  { exWidget0 with style := { hasAttr := true, position := some kwFixed, top := some kwAuto } }

/-- Constructor options with offsetTop 20 and a top boundary selector. -/
def exOpts : OptArgs :=
  { offsetTop := some (JSVal.num 20), offsetBottom := none,
    topElement := some (JSVal.str ("#hdr".toList)), bottomElement := none }

/-- Constructor options with both offsets and both boundary selectors. -/
def exOptsBoth : OptArgs :=
  { offsetTop := some (JSVal.num 20), offsetBottom := some (JSVal.num 4),
    topElement := some (JSVal.str ("#hdr".toList)),
    bottomElement := some (JSVal.str ("#ftr".toList)) }

/-- Constructor options whose offsetTop is the unparseable string abc. -/
def exNanOpts : OptArgs :=
  { offsetTop := some (JSVal.str ("abc".toList)), offsetBottom := none,
    topElement := none, bottomElement := none }

/-- Construction environment: the top selector resolves to a non-body
element of height 100 at position 50, the bottom one to the body. -/
def exInit : InitEnv :=
  { topSelIsBody := false, bottomSelIsBody := true,
    senv := { rootOffsetTop := 10, rootOffsetLeft := 5,
              dimsWidth := JSVal.str ("100px".toList),
              computedWidth := JSVal.str ("100px".toList) },
    oenv := { topHeight := 100, topTop := 50, bottomHeight := 0 },
    scenv := exTopEnv,
    style0 := emptyStyle }

/-- Construction environment in which both boundary selectors resolve to
non-body elements. -/
def exInitBoth : InitEnv :=
  { exInit with bottomSelIsBody := false, oenv := { topHeight := 100, topTop := 50, bottomHeight := 30 } }

/-- Geometry of one settled resize. -/
def exResize : ResizeEnv :=
  { senv := exInit.senv, oenv := { topHeight := 10, topTop := 1, bottomHeight := 2 },
    scenv := exBottomEnv }

/-- Explicit option record carrying offsetTop 5. -/
def exOpts5 : OptArgs := { noArgs with offsetTop := some (JSVal.num 5) }

/-- Data-attribute record carrying offsetTop 7. -/
def exData7 : OptArgs := { noArgs with offsetTop := some (JSVal.num 7) }

/-- Desktop Chrome user agent. -/
def exChromeUa : List Char :=
  "Mozilla/5.0 (Windows NT 10.0) AppleWebKit/537.36 (KHTML, like Gecko) Chrome/45.0.2454.85 Safari/537.36".toList

/-- Chrome-for-iOS user agent: it contains crios/ but no chrome/ substring. -/
def exCriosUa : List Char :=
  "Mozilla/5.0 (iPhone) AppleWebKit/601.1.46 (KHTML, like Gecko) CriOS/46.0.2490.73 Mobile Safari/601.1".toList

/-- A numeric ORIGINAL offset passes the truthiness-guarded parse of the
scroll handler unchanged: a nonzero number is truthy and parses to itself,
and zero falls through to the 0 fallback, which is the same value. -/
theorem offsetNumEval (m : Int) :
    (if truthy (JSVal.num m) then parseIntJS (JSVal.num m) else JSVal.num 0) = JSVal.num m := by
  by_cases h : m = 0 <;> simp [truthy, parseIntJS, h]

/-- A scroll tick never changes the option record of the widget. -/
theorem onScroll_options (env : ScrollEnv) (w : StickyWidget) :
    (onScroll env w).options = w.options := by
  unfold onScroll
  split_ifs <;> rfl

/-- A scroll tick never changes the ORIGINAL snapshot of the widget. -/
theorem onScroll_ORIGINAL (env : ScrollEnv) (w : StickyWidget) :
    (onScroll env w).ORIGINAL = w.ORIGINAL := by
  unfold onScroll
  split_ifs <;> rfl

/-- C1. On a scroll tick where the narrow-viewport guard does not fire, the
mode conditions are evaluated in the order TOP, BOTTOM, SCREEN (the if chain
of scrollDecision, mirroring lib.js lines 131-144), and whenever the bottom
condition holds, i.e. the top edge of the bottom boundary is closer than the
target height, the tick sets the inline position to fixed and the inline top
to bottomRect.top minus the target height minus offsetBottom, in pixels, and
records the bottom mode in the classes. -/
theorem sticky_bottom_mode_fixed_top (w : StickyWidget) (env : ScrollEnv) (m : Int)
    (hg : guardFires env = false)
    (hb : env.bottomRectTop < env.elemRectBottom - env.elemRectTop)
    (hm : w.ORIGINAL.offsetBottom = JSVal.num m) :
    (onScroll env w).style.position = some kwFixed
    ∧ (onScroll env w).style.top =
        some ((toString (env.bottomRectTop - (env.elemRectBottom - env.elemRectTop) - m)).toList ++ kwPx)
    ∧ (onScroll env w).classStickingBottom = true
    ∧ (onScroll env w).classSticking = false := by
  have hob : onScrollOffsetBottom w = JSVal.num m := by
    rw [onScrollOffsetBottom, hm]; exact offsetNumEval m
  have hd : (scrollDecision (onScrollOffsetTop w) (onScrollOffsetBottom w) env w.style).1 = kwBottom
      ∧ (scrollDecision (onScrollOffsetTop w) (onScrollOffsetBottom w) env w.style).2 =
        { w.style with
          hasAttr := true
          position := some kwFixed
          top := some ((toString (env.bottomRectTop - (env.elemRectBottom - env.elemRectTop) - m)).toList ++ kwPx) } := by
    rw [scrollDecision, if_neg, if_pos hb]
    · rw [hob]
      simp [jsSub, jsNumToChars]
    · rintro ⟨-, h2⟩
      omega
  simp only [onScroll, hg, Bool.false_eq_true, if_false, hd.1, hd.2]
  refine ⟨?_, ?_, ?_, ?_⟩ <;> trivial

/-- C3. On a scroll tick in which the target is wider than 90 percent of the
viewport or the viewport is at most 649 pixels wide, the handler removes the
inline style attribute when it is present and returns early: the recorded
mode, both sticking classes and the option state are untouched. -/
theorem sticky_guard_strips_style (w : StickyWidget) (env : ScrollEnv)
    (hg : 100 * env.elementWidth > 90 * env.clientWidth ∨ env.clientWidth ≤ 649) :
    (onScroll env w).style = (if w.style.hasAttr then emptyStyle else w.style)
    ∧ (onScroll env w).stickingTo = w.stickingTo
    ∧ (onScroll env w).classSticking = w.classSticking
    ∧ (onScroll env w).classStickingBottom = w.classStickingBottom
    ∧ (onScroll env w).options = w.options
    ∧ (onScroll env w).ORIGINAL = w.ORIGINAL := by
  have hgf : guardFires env = true := by
    unfold guardFires
    rcases hg with h | h
    · have h2 : env.elementWidth * 100 > 90 * env.clientWidth := by omega
      simp [h2]
    · simp [h]
  unfold onScroll
  rw [hgf]
  by_cases ha : w.style.hasAttr <;> simp [ha]

/-- C4 counterexample. A tick with the guard off, the bottom edge of the top
boundary below the offset and the bottom boundary farther than the target
height enters the TOP branch, and the element then carries an inline
position declaration with value static, lib.js lines 133-134, rather than no
inline position style at all. -/
theorem sticky_top_mode_cex :
    guardFires exTopEnv = false
    ∧ (onScroll exTopEnv exWidget0).classSticking = true
    ∧ (onScroll exTopEnv exWidget0).style.position = some kwStatic
    ∧ ¬((onScroll exTopEnv exWidget0).style.position = none)
    ∧ (onScroll exTopEnv exWidget0).style.hasAttr = true := by
  decide

/-- C4 as amended. When the guard does not fire, the bottom edge of the top
boundary is below the configured top offset and the top edge of the bottom
boundary is farther than the target height, the tick records mode TOP and
writes the inline declarations position static and top auto, the offset-free
static placement of lib.js lines 131-134. -/
theorem sticky_top_mode_sets_static (w : StickyWidget) (env : ScrollEnv) (t : Int)
    (hg : guardFires env = false)
    (ht : w.ORIGINAL.offsetTop = JSVal.num t)
    (h1 : env.topRectBottom > t)
    (h2 : env.bottomRectTop > env.elemRectBottom - env.elemRectTop) :
    (onScroll env w).classSticking = true
    ∧ (onScroll env w).style.position = some kwStatic
    ∧ (onScroll env w).style.top = some kwAuto
    ∧ (onScroll env w).classStickingBottom = false := by
  have hot : onScrollOffsetTop w = JSVal.num t := by
    rw [onScrollOffsetTop, ht]; exact offsetNumEval t
  have hd : (scrollDecision (onScrollOffsetTop w) (onScrollOffsetBottom w) env w.style).1 = kwTop
      ∧ (scrollDecision (onScrollOffsetTop w) (onScrollOffsetBottom w) env w.style).2 =
        { w.style with hasAttr := true, position := some kwStatic, top := some kwAuto } := by
    rw [scrollDecision, if_pos]
    · exact ⟨rfl, rfl⟩
    · refine ⟨?_, h2⟩
      rw [hot]
      simp [jsGt, h1]
  simp only [onScroll, hg, Bool.false_eq_true, if_false, hd.1, hd.2]
  refine ⟨?_, ?_, ?_, ?_⟩ <;> trivial

/-- C4 witness. -/
theorem sticky_top_mode_sets_static_witness :
    (onScroll exTopEnv exWidget0).classSticking = true
    ∧ (onScroll exTopEnv exWidget0).style.position = some kwStatic
    ∧ (onScroll exTopEnv exWidget0).style.top = some kwAuto
    ∧ (onScroll exTopEnv exWidget0).classStickingBottom = false :=
  sticky_top_mode_sets_static exWidget0 exTopEnv 0 (by decide) (by decide) (by decide) (by decide)

/-- C1 witness. -/
theorem sticky_bottom_mode_fixed_top_witness :
    (onScroll exBottomEnv exWidget7).style.position = some kwFixed
    ∧ (onScroll exBottomEnv exWidget7).style.top =
        some ((toString (exBottomEnv.bottomRectTop - (exBottomEnv.elemRectBottom - exBottomEnv.elemRectTop) - 7)).toList ++ kwPx)
    ∧ (onScroll exBottomEnv exWidget7).classStickingBottom = true
    ∧ (onScroll exBottomEnv exWidget7).classSticking = false :=
  sticky_bottom_mode_fixed_top exWidget7 exBottomEnv 7 (by decide) (by decide) (by decide)

/-- C3 witness. -/
theorem sticky_guard_strips_style_witness :
    (onScroll exGuardEnv exWidgetStyled).style =
      (if exWidgetStyled.style.hasAttr then emptyStyle else exWidgetStyled.style)
    ∧ (onScroll exGuardEnv exWidgetStyled).stickingTo = exWidgetStyled.stickingTo
    ∧ (onScroll exGuardEnv exWidgetStyled).classSticking = exWidgetStyled.classSticking
    ∧ (onScroll exGuardEnv exWidgetStyled).classStickingBottom = exWidgetStyled.classStickingBottom
    ∧ (onScroll exGuardEnv exWidgetStyled).options = exWidgetStyled.options
    ∧ (onScroll exGuardEnv exWidgetStyled).ORIGINAL = exWidgetStyled.ORIGINAL :=
  sticky_guard_strips_style exWidgetStyled exGuardEnv (Or.inr (by decide))

/-- C10. On a tick with the guard off, the bottom edge of the top boundary
below the configured top offset and the top edge of the bottom boundary
exactly equal to the target height, none of the three mode conditions holds:
the inline style is left as it was, the recorded mode is not updated, and
both sticking classes are removed. -/
theorem sticky_no_mode_on_exact_boundary (w : StickyWidget) (env : ScrollEnv) (t : Int)
    (hg : guardFires env = false)
    (ht : w.ORIGINAL.offsetTop = JSVal.num t)
    (htb : env.topRectBottom > t)
    (heq : env.bottomRectTop = env.elemRectBottom - env.elemRectTop) :
    (onScroll env w).style = w.style
    ∧ (onScroll env w).stickingTo = w.stickingTo
    ∧ (onScroll env w).classSticking = false
    ∧ (onScroll env w).classStickingBottom = false := by
  have hot : onScrollOffsetTop w = JSVal.num t := by
    rw [onScrollOffsetTop, ht]; exact offsetNumEval t
  have hd : (scrollDecision (onScrollOffsetTop w) (onScrollOffsetBottom w) env w.style).1 = ([] : List Char)
      ∧ (scrollDecision (onScrollOffsetTop w) (onScrollOffsetBottom w) env w.style).2 = w.style := by
    rw [scrollDecision, if_neg, if_neg, if_neg]
    · exact ⟨rfl, rfl⟩
    · rw [hot]
      simp [jsLe]
      omega
    · omega
    · rintro ⟨-, h2⟩
      omega
  simp only [onScroll, hg, Bool.false_eq_true, if_false, hd.1, hd.2]
  refine ⟨?_, ?_, ?_, ?_⟩ <;> trivial

/-- C10 witness. -/
theorem sticky_no_mode_on_exact_boundary_witness :
    (onScroll exEqEnv exWidget0).style = exWidget0.style
    ∧ (onScroll exEqEnv exWidget0).stickingTo = exWidget0.stickingTo
    ∧ (onScroll exEqEnv exWidget0).classSticking = false
    ∧ (onScroll exEqEnv exWidget0).classStickingBottom = false :=
  sticky_no_mode_on_exact_boundary exWidget0 exEqEnv 0 (by decide) (by decide) (by decide) (by decide)

/-- Projections of _calculateOriginalSizes when the original offsets are
still uncaptured: the original offsets are set from the configured offsets
and the configured offsets and boundary selectors are untouched. -/
theorem calcOriginalSizes_proj (env : SizesEnv) (o : StickyOptions)
    (h : o.originalOffsetTop = JSVal.undef) :
    (calcOriginalSizes env o).originalOffsetTop = parseIntJS o.offsetTop
    ∧ (calcOriginalSizes env o).originalOffsetBottom = parseIntJS o.offsetBottom
    ∧ (calcOriginalSizes env o).offsetTop = o.offsetTop
    ∧ (calcOriginalSizes env o).offsetBottom = o.offsetBottom := by
  simp [calcOriginalSizes, h]

/-- When the original offsets are already captured, _calculateOriginalSizes
keeps them. -/
theorem calcOriginalSizes_keeps (env : SizesEnv) (o : StickyOptions)
    (h : o.originalOffsetTop ≠ JSVal.undef) :
    (calcOriginalSizes env o).originalOffsetTop = o.originalOffsetTop
    ∧ (calcOriginalSizes env o).originalOffsetBottom = o.originalOffsetBottom := by
  simp [calcOriginalSizes, h]

/-- The offsets written by _calculateOffsets for two non-body boundaries. -/
theorem calcOffsets_nonbody (env : OffsetsEnv) (o : StickyOptions) :
    (calcOffsets env false false o).offsetTop =
      jsAdd (jsAdd (JSVal.num env.topHeight) (JSVal.num env.topTop)) (parseIntJS o.originalOffsetTop)
    ∧ (calcOffsets env false false o).offsetBottom =
      jsAdd (JSVal.num env.bottomHeight) (parseIntJS o.originalOffsetBottom) := by
  simp [calcOffsets]

/-- The original offsets survive _calculateOffsets untouched. -/
theorem calcOffsets_originals (env : OffsetsEnv) (tb bb : Bool) (o : StickyOptions) :
    (calcOffsets env tb bb o).originalOffsetTop = o.originalOffsetTop
    ∧ (calcOffsets env tb bb o).originalOffsetBottom = o.originalOffsetBottom := by
  unfold calcOffsets
  split_ifs <;> simp

/-- The option merge never introduces an original offset key. -/
theorem extendObj3_originalOffsetTop (o d : OptArgs) :
    (extendObj3 stickyDefaults o d).originalOffsetTop = JSVal.undef := rfl

/-- The ORIGINAL snapshot of a freshly constructed widget is the merged
configuration, taken before the offset recomputation runs. -/
theorem mkSticky_ORIGINAL (opts datas : OptArgs) (e : InitEnv) :
    (mkSticky opts datas e).ORIGINAL = extendObj3 stickyDefaults opts datas := by
  simp only [mkSticky]
  rw [onScroll_ORIGINAL]

/-- The option record of a freshly constructed widget is the merged
configuration piped through _calculateOriginalSizes and _calculateOffsets;
the closing _onScroll tick of _calculateOffsets does not touch it. -/
theorem mkSticky_options (opts datas : OptArgs) (e : InitEnv) :
    (mkSticky opts datas e).options =
      calcOffsets e.oenv
        (if (extendObj3 stickyDefaults opts datas).topElement = JSVal.undef then true else e.topSelIsBody)
        (if (extendObj3 stickyDefaults opts datas).bottomElement = JSVal.undef then true else e.bottomSelIsBody)
        (calcOriginalSizes e.senv (extendObj3 stickyDefaults opts datas)) := by
  simp only [mkSticky]
  rw [onScroll_options]

/-- C2 counterexample. Constructing with offsetTop 20 and a non-body top
boundary of height 100 at position 50 rebuilds the cache to
boundaryHeight + boundaryTopPosition + originalOffsetTop = 170, lib.js line
195, but the offsetTop value the scroll handler works with, lib.js line 121,
is the ORIGINAL configured 20, not the rebuilt 170. -/
theorem sticky_offsets_cache_cex :
    (mkSticky exOpts noArgs exInit).options.offsetTop = JSVal.num 170
    ∧ onScrollOffsetTop (mkSticky exOpts noArgs exInit) = JSVal.num 20
    ∧ JSVal.num 20 ≠ JSVal.num 170 := by
  decide

/-- C2 as amended. After construction (or a settled resize) with non-body
boundaries, the offset recomputation stores boundaryHeight +
boundaryTopPosition + originalOffsetTop into the cached offsetTop (and
boundaryHeight + originalOffsetBottom into the cached offsetBottom), but the
scroll handler does not read this cache: the values it decides and applies
placement with are the ORIGINAL configured offsets. -/
theorem sticky_offsets_cache_vs_scroll (opts datas : OptArgs) (e : InitEnv) (n nb : Int)
    (ht : (extendObj3 stickyDefaults opts datas).offsetTop = JSVal.num n)
    (hb : (extendObj3 stickyDefaults opts datas).offsetBottom = JSVal.num nb)
    (hte : (extendObj3 stickyDefaults opts datas).topElement ≠ JSVal.undef)
    (hbe : (extendObj3 stickyDefaults opts datas).bottomElement ≠ JSVal.undef)
    (h1 : e.topSelIsBody = false) (h2 : e.bottomSelIsBody = false) :
    (mkSticky opts datas e).options.offsetTop = JSVal.num (e.oenv.topHeight + e.oenv.topTop + n)
    ∧ (mkSticky opts datas e).options.offsetBottom = JSVal.num (e.oenv.bottomHeight + nb)
    ∧ onScrollOffsetTop (mkSticky opts datas e) = JSVal.num n
    ∧ onScrollOffsetBottom (mkSticky opts datas e) = JSVal.num nb := by
  have hcs := calcOriginalSizes_proj e.senv (extendObj3 stickyDefaults opts datas)
    (extendObj3_originalOffsetTop opts datas)
  have hopt := mkSticky_options opts datas e
  rw [if_neg hte, if_neg hbe, h1, h2] at hopt
  have hO := mkSticky_ORIGINAL opts datas e
  refine ⟨?_, ?_, ?_, ?_⟩
  · rw [hopt, (calcOffsets_nonbody e.oenv _).1, hcs.1, ht]
    simp [parseIntJS, jsAdd]
  · rw [hopt, (calcOffsets_nonbody e.oenv _).2, hcs.2.1, hb]
    simp [parseIntJS, jsAdd]
  · rw [onScrollOffsetTop, hO, ht]
    exact offsetNumEval n
  · rw [onScrollOffsetBottom, hO, hb]
    exact offsetNumEval nb

/-- C2 witness. -/
theorem sticky_offsets_cache_vs_scroll_witness :
    (mkSticky exOptsBoth noArgs exInitBoth).options.offsetTop =
      JSVal.num (exInitBoth.oenv.topHeight + exInitBoth.oenv.topTop + 20)
    ∧ (mkSticky exOptsBoth noArgs exInitBoth).options.offsetBottom =
      JSVal.num (exInitBoth.oenv.bottomHeight + 4)
    ∧ onScrollOffsetTop (mkSticky exOptsBoth noArgs exInitBoth) = JSVal.num 20
    ∧ onScrollOffsetBottom (mkSticky exOptsBoth noArgs exInitBoth) = JSVal.num 4 :=
  sticky_offsets_cache_vs_scroll exOptsBoth noArgs exInitBoth 20 4
    (by decide) (by decide) (by decide) (by decide) (by decide) (by decide)

/-- A settled resize keeps a captured original offsetTop: the capture guard
of _calculateOriginalSizes fires only when the key is still undefined, and
neither _calculateOffsets nor the closing scroll tick writes it. -/
theorem resize_keeps_originalOffsetTop (re : ResizeEnv) (w : StickyWidget) (n : Int)
    (h : w.options.originalOffsetTop = JSVal.num n) :
    (onResizeSettled re w).options.originalOffsetTop = JSVal.num n := by
  unfold onResizeSettled
  rw [onScroll_options]
  have h1 := (calcOriginalSizes_keeps re.senv w.options (by rw [h]; intro hc; cases hc)).1
  rw [(calcOffsets_originals re.oenv w.topIsBody w.bottomIsBody _).1, h1, h]

/-- Any number of settled resizes keeps a captured original offsetTop. -/
theorem resizes_keep_originalOffsetTop (envs : List ResizeEnv) (w : StickyWidget) (n : Int)
    (h : w.options.originalOffsetTop = JSVal.num n) :
    (envs.foldl (fun acc re => onResizeSettled re acc) w).options.originalOffsetTop = JSVal.num n := by
  induction envs generalizing w with
  | nil => simpa using h
  | cons re rest ih => simpa using ih _ (resize_keeps_originalOffsetTop re w n h)

/-- C5. A widget whose merged configuration carries offsetTop 20 captures
originalOffsetTop = 20 during construction, and the value survives any
number of resize-triggered recomputations (each running
_calculateOriginalSizes and then _calculateOffsets), even though the working
offsetTop and offsetBottom are overwritten by every recomputation. -/
theorem sticky_original_offset_stable (opts datas : OptArgs) (e : InitEnv)
    (envs : List ResizeEnv)
    (h : (extendObj3 stickyDefaults opts datas).offsetTop = JSVal.num 20) :
    (envs.foldl (fun acc re => onResizeSettled re acc)
        (mkSticky opts datas e)).options.originalOffsetTop = JSVal.num 20 := by
  apply resizes_keep_originalOffsetTop
  rw [mkSticky_options]
  rw [(calcOffsets_originals e.oenv _ _ _).1]
  rw [(calcOriginalSizes_proj e.senv _ (extendObj3_originalOffsetTop opts datas)).1, h]
  rfl

/-- C5 witness. -/
theorem sticky_original_offset_stable_witness :
    ([exResize, exResize, exResize].foldl (fun acc re => onResizeSettled re acc)
        (mkSticky exOpts noArgs exInit)).options.originalOffsetTop = JSVal.num 20 :=
  sticky_original_offset_stable exOpts noArgs exInit [exResize, exResize, exResize] (by decide)

/-- C6 counterexample. A widget constructed with the unparseable offsetTop
string abc works with NaN on every scroll tick, lib.js line 121: the truthy
string passes the guard and parseInt gives NaN, which is not the claimed
fallback 0. -/
theorem sticky_nan_offset_cex :
    onScrollOffsetTop (mkSticky exNanOpts noArgs exInit) = JSVal.nan
    ∧ JSVal.nan ≠ JSVal.num 0 := by
  decide

/-- C6 as amended. Only a falsy configured offset (0, the empty string,
undefined, NaN) falls back to 0 in the scroll handler; a truthy offset that
does not parse is used as NaN: the scroll handler works with NaN, the TOP
and SCREEN conditions comparing against it are then false, and
_calculateOriginalSizes stores NaN into the captured original offset. No
error is raised anywhere (all embedded operations are total). -/
theorem sticky_nan_offset_behavior (w w2 : StickyWidget) (s : List Char)
    (senv : SizesEnv) (o : StickyOptions) (env : ScrollEnv) (offB : JSVal) (st : ElemStyle)
    (h1 : w.ORIGINAL.offsetTop = JSVal.str s) (h2 : s ≠ [])
    (h3 : parseIntStr s = JSVal.nan)
    (h4 : o.offsetTop = JSVal.str s) (h5 : o.originalOffsetTop = JSVal.undef)
    (h6 : truthy w2.ORIGINAL.offsetTop = false) :
    onScrollOffsetTop w = JSVal.nan
    ∧ (calcOriginalSizes senv o).originalOffsetTop = JSVal.nan
    ∧ (scrollDecision JSVal.nan offB env st).1 ≠ kwTop
    ∧ (scrollDecision JSVal.nan offB env st).1 ≠ kwScreen
    ∧ onScrollOffsetTop w2 = JSVal.num 0 := by
  refine ⟨?_, ?_, ?_, ?_, ?_⟩
  · rw [onScrollOffsetTop, h1]
    simp [truthy, h2, parseIntJS, h3]
  · rw [(calcOriginalSizes_proj senv o h5).1, h4]
    simp [parseIntJS, h3]
  · unfold scrollDecision
    split_ifs with hc1 hc2 hc3
    · exact absurd hc1.1 (by simp [jsGt])
    · show kwBottom ≠ kwTop
      decide
    · exact absurd hc3 (by simp [jsLe])
    · show ([] : List Char) ≠ kwTop
      decide
  · unfold scrollDecision
    split_ifs with hc1 hc2 hc3
    · exact absurd hc1.1 (by simp [jsGt])
    · show kwBottom ≠ kwScreen
      decide
    · exact absurd hc3 (by simp [jsLe])
    · show ([] : List Char) ≠ kwScreen
      decide
  · rw [onScrollOffsetTop, h6]
    simp

/-- C6 witness. -/
theorem sticky_nan_offset_behavior_witness :
    onScrollOffsetTop exWidgetNan = JSVal.nan
    ∧ (calcOriginalSizes exInit.senv { stickyDefaults with offsetTop := JSVal.str ("abc".toList) }).originalOffsetTop = JSVal.nan
    ∧ (scrollDecision JSVal.nan (JSVal.num 0) exBottomEnv emptyStyle).1 ≠ kwTop
    ∧ (scrollDecision JSVal.nan (JSVal.num 0) exBottomEnv emptyStyle).1 ≠ kwScreen
    ∧ onScrollOffsetTop exWidget0 = JSVal.num 0 :=
  sticky_nan_offset_behavior exWidgetNan exWidget0 ("abc".toList) exInit.senv
    { stickyDefaults with offsetTop := JSVal.str ("abc".toList) } exBottomEnv (JSVal.num 0) emptyStyle
    (by decide) (by decide) (by decide) (by decide) (by decide) (by decide)

/-- C9 counterexample. With offsetTop supplied both explicitly (5) and as a
data attribute (7), the merge of lib.js line 49-54 applies the data
attributes last, so the data attribute wins over the explicit option, not
the other way round. -/
theorem sticky_option_merge_cex :
    (extendObj3 stickyDefaults exOpts5 exData7).offsetTop = JSVal.num 7
    ∧ JSVal.num 7 ≠ JSVal.num 5 := by
  decide

/-- C9 as amended. The configuration resolution order of the constructor is
data attribute over explicit option over default, for every recognised key:
the constructor merges the defaults, then the explicit options, then the
data-attribute record, and a later source overrides an earlier one. An
explicit option therefore wins only over the built-in default. -/
theorem sticky_option_resolution (opts datas : OptArgs) :
    (extendObj3 stickyDefaults opts datas).offsetTop =
      (match datas.offsetTop, opts.offsetTop with
       | some d, _ => d
       | none, some o => o
       | none, none => JSVal.num 0)
    ∧ (extendObj3 stickyDefaults opts datas).offsetBottom =
      (match datas.offsetBottom, opts.offsetBottom with
       | some d, _ => d
       | none, some o => o
       | none, none => JSVal.num 0)
    ∧ (extendObj3 stickyDefaults opts datas).topElement =
      (match datas.topElement, opts.topElement with
       | some d, _ => d
       | none, some o => o
       | none, none => JSVal.undef)
    ∧ (extendObj3 stickyDefaults opts datas).bottomElement =
      (match datas.bottomElement, opts.bottomElement with
       | some d, _ => d
       | none, some o => o
       | none, none => JSVal.undef) := by
  obtain ⟨ot, ob, ote, obe⟩ := opts
  obtain ⟨dt, db, dte, dbe⟩ := datas
  refine ⟨?_, ?_, ?_, ?_⟩
  · cases dt <;> cases ot <;> rfl
  · cases db <;> cases ob <;> rfl
  · cases dte <;> cases ote <;> rfl
  · cases dbe <;> cases obe <;> rfl

/-- When the pattern does not occur in the string, the modelled replace does
not fire and returns the string unchanged. -/
theorem replaceTok_of_not_contains (pat : List Char) (bad : Char → Bool) (s : List Char)
    (h : containsSub pat s = false) : replaceTok pat bad s = s := by
  have hf : (suffixes s).filter (fun t => lpre pat t) = [] := by
    rw [List.filter_eq_nil_iff]
    intro t ht hc
    have := List.any_eq_true.mpr ⟨t, ht, hc⟩
    rw [containsSub] at h
    simp [this] at h
  simp [replaceTok, tokenMatches, occAfter, hf]

/-- C7. The family flags of the sniffer: each flag is exactly the
corresponding branch condition of the ordered if chain of _sniffUserAgent,
so at most one of IE, GECKO, OPERA, SAFARI, KONQUEROR, CHROME is set, the
precedence is WebKit before Opera before Konqueror before IE/Trident before
Gecko, and a string matching none of the patterns leaves every flag false. -/
theorem browser_family_flags (ua : List Char) :
    famCount (sniffUserAgent ua) ≤ 1
    ∧ (sniffUserAgent ua).CHROME =
        (containsSub kwApplewebkit (lowerStr ua)
          && (containsSub kwChromeSlash (lowerStr ua) || containsSub kwCriosSlash (lowerStr ua)))
    ∧ (sniffUserAgent ua).SAFARI =
        (containsSub kwApplewebkit (lowerStr ua)
          && !(containsSub kwChromeSlash (lowerStr ua) || containsSub kwCriosSlash (lowerStr ua)))
    ∧ (sniffUserAgent ua).OPERA =
        (!containsSub kwApplewebkit (lowerStr ua) && containsSub kwOpera (lowerStr ua))
    ∧ (sniffUserAgent ua).KONQUEROR =
        (!containsSub kwApplewebkit (lowerStr ua) && !containsSub kwOpera (lowerStr ua)
          && containsSub kwKonqueror (lowerStr ua))
    ∧ (sniffUserAgent ua).IE =
        (!containsSub kwApplewebkit (lowerStr ua) && !containsSub kwOpera (lowerStr ua)
          && !containsSub kwKonqueror (lowerStr ua)
          && (containsSub kwMsie (lowerStr ua) || containsSub kwTrident (lowerStr ua)))
    ∧ (sniffUserAgent ua).GECKO =
        (!containsSub kwApplewebkit (lowerStr ua) && !containsSub kwOpera (lowerStr ua)
          && !containsSub kwKonqueror (lowerStr ua) && !containsSub kwMsie (lowerStr ua)
          && !containsSub kwTrident (lowerStr ua) && containsSub kwGecko (lowerStr ua)) := by
  simp only [sniffUserAgent, famCount]
  generalize containsSub kwApplewebkit (lowerStr ua) = b1
  generalize containsSub kwChromeSlash (lowerStr ua) = b2
  generalize containsSub kwCriosSlash (lowerStr ua) = b3
  generalize containsSub kwOpera (lowerStr ua) = b4
  generalize containsSub kwKonqueror (lowerStr ua) = b5
  generalize containsSub kwMsie (lowerStr ua) = b6
  generalize containsSub kwTrident (lowerStr ua) = b7
  generalize containsSub kwGecko (lowerStr ua) = b8
  cases b1 <;> cases b2 <;> cases b3 <;> cases b4 <;> cases b5 <;> cases b6 <;>
    cases b7 <;> cases b8 <;> simp [Bool.toNat]

/-- C8 counterexample. The Chrome-for-iOS user agent contains crios/ but no
chrome/ substring: it is classified CHROME, but the version replace of
lib.js line 188 does not match and leaves the whole lowercased user-agent
string as the version, which contains whitespace and so is not the token
following chrome/ up to the next whitespace. -/
theorem browser_crios_version_cex :
    (sniffUserAgent exCriosUa).CHROME = true
    ∧ containsSub kwChromeSlash (lowerStr exCriosUa) = false
    ∧ (sniffUserAgent exCriosUa).version = some (lowerStr exCriosUa)
    ∧ (lowerStr exCriosUa).any (fun c => isSpaceJS c) = true := by
  decide

/-- C8 as amended. Every user agent containing applewebkit/ and chrome/ or
crios/ (case-insensitively) is classified CHROME (flag true, model chrome,
SAFARI false). Its version is the result of the replace on
(.*)chrome\/([^\s]+)(.*): when a chrome/ occurrence followed by a non-space
character exists, the token after the last such occurrence up to the next
whitespace; when the string has no chrome/ occurrence at all (as for
Chrome-iOS agents with only crios/), the replace does not fire and the
version is the entire lowercased user-agent string. -/
theorem browser_chrome_classification (ua : List Char)
    (hw : containsSub kwApplewebkit (lowerStr ua) = true)
    (hc : (containsSub kwChromeSlash (lowerStr ua) || containsSub kwCriosSlash (lowerStr ua)) = true) :
    (sniffUserAgent ua).CHROME = true
    ∧ (sniffUserAgent ua).model = some kwChrome
    ∧ (sniffUserAgent ua).SAFARI = false
    ∧ (sniffUserAgent ua).version = some (replaceTok kwChromeSlash isSpaceJS (lowerStr ua))
    ∧ (containsSub kwChromeSlash (lowerStr ua) = false →
        (sniffUserAgent ua).version = some (lowerStr ua))
    ∧ (∀ t, (tokenMatches kwChromeSlash isSpaceJS (lowerStr ua)).getLast? = some t →
        (sniffUserAgent ua).version = some (t.takeWhile (fun c => !(isSpaceJS c)))) := by
  have hs : sniffUserAgent ua =
      { IE := false, GECKO := false, OPERA := false, SAFARI := false,
        KONQUEROR := false, CHROME := true, model := some kwChrome,
        version := some (replaceTok kwChromeSlash isSpaceJS (lowerStr ua)),
        userAgent := some ua, cssPref := some kwWebkitCss, domPref := some kwWebkitDom } := by
    simp only [sniffUserAgent]
    rw [if_pos hw, if_pos hc]
  refine ⟨by rw [hs], by rw [hs], by rw [hs], by rw [hs], ?_, ?_⟩
  · intro h
    rw [hs]
    simp only [Option.some.injEq]
    exact replaceTok_of_not_contains kwChromeSlash isSpaceJS (lowerStr ua) h
  · intro t htok
    rw [hs]
    simp only [Option.some.injEq]
    rw [replaceTok, htok]

/-- C8 witness. -/
theorem browser_chrome_classification_witness :
    (sniffUserAgent exChromeUa).CHROME = true
    ∧ (sniffUserAgent exChromeUa).model = some kwChrome
    ∧ (sniffUserAgent exChromeUa).SAFARI = false :=
  ⟨(browser_chrome_classification exChromeUa (by decide) (by decide)).1,
   (browser_chrome_classification exChromeUa (by decide) (by decide)).2.1,
   (browser_chrome_classification exChromeUa (by decide) (by decide)).2.2.1⟩
